import Mathlib

/-!
Verification of the core of a minimal top-down 2D arena demo (bevy + rapier).

The source is a single Rust file.  Its core pieces are embedded here:

* `keyboardDirection` / `keyboard_control` — the input-to-velocity mapper
  (`keyboard_control` in `main.rs`).  Key contributions and the `SPEED`
  multiplier are exact small integers in `f32`, so they are embedded over `Int`.
* `transform2d`, `spawn_rectangle`, `spawn_rigid_body_rectangle` — the entity
  composition builder, embedded over `ℝ` (the rotation path goes through
  `Quat::from_axis_angle` / `Quat::to_axis_angle`, modelled with real `sin`,
  `cos` and `arccos` exactly as glam computes them).
* the scene constants of `setup` (walls, obstacles, player), embedded over `ℚ`.
* the fixed-timestep accumulator, modelled from the spec (the accumulator
  itself lives in the bevy `FixedTimestep` run criteria, outside this
  repository's sources), over `ℚ`.
-/

/-- The four logical directional keys polled by `keyboard_control`
(`keyboard_input.pressed(KeyCode::Left / Right / Down / Up)`). -/
structure KeyState where
  left : Bool
  right : Bool
  down : Bool
  up : Bool
deriving DecidableEq

/-- Embeds the direction accumulation of `keyboard_control`: starting from
`Vector::zeros()`, Left adds `(-1, 0)`, Right adds `(1, 0)`, Down adds
`(0, -1)`, Up adds `(0, 1)`, in source order.  All values are exact in `f32`,
so the embedding uses `Int`. -/
def keyboardDirection (k : KeyState) : Int × Int :=
  let d : Int × Int := (0, 0)
  let d : Int × Int := if k.left then (d.1 + -1, d.2) else d
  let d : Int × Int := if k.right then (d.1 + 1, d.2) else d
  let d : Int × Int := if k.down then (d.1, d.2 + -1) else d
  let d : Int × Int := if k.up then (d.1, d.2 + 1) else d
  d

/-- `const SPEED: f32 = 200.0;` in `keyboard_control`. -/
def SPEED : Int := 200

/-- The velocity written by `keyboard_control`: `vel.linvel = SPEED * direction`.
Exact in `f32` since the direction components are in `{-1, 0, 1}`. -/
def keyboardVelocity (k : KeyState) : Int × Int :=
  (SPEED * (keyboardDirection k).1, SPEED * (keyboardDirection k).2)

/-- An entity as seen by the `Query<(&KeyboardControlled, &mut RigidBodyVelocity)>`
world: whether it carries the `KeyboardControlled` marker, and its linear
velocity. -/
structure PhysEntity where
  controlled : Bool
  linvel : Int × Int
deriving DecidableEq

/-- Embeds the `keyboard_control` system: `query.single_mut()` succeeds exactly
when one entity matches the query (bevy `Query::single_mut` returns `Err` on
zero or on multiple matches), in which case the velocity of that unique
matching entity is overwritten with `SPEED * direction`; otherwise the
`if let Ok` body is skipped and nothing is written. -/
def keyboard_control (k : KeyState) (es : List PhysEntity) : List PhysEntity :=
  if (es.filter fun e => e.controlled).length = 1 then
    es.map fun e => if e.controlled then ⟨e.controlled, keyboardVelocity k⟩ else e
  else
    es

theorem sqrt80000 : Real.sqrt 80000 = 200 * Real.sqrt 2 := by
  have h : (80000 : ℝ) = (200 * Real.sqrt 2) ^ 2 := by
    rw [mul_pow, Real.sq_sqrt (by norm_num : (0:ℝ) ≤ 2)]
    norm_num
  rw [h, Real.sqrt_sq (by positivity)]

/-- C1: for every subset of the four directional keys, the mapper computes
direction.x = (+1 if Right) + (−1 if Left) and direction.y = (+1 if Up) +
(−1 if Down), and writes exactly `200 * direction` (unnormalized) to the
controlled entity's linear velocity; in particular Left+Right gives
x-velocity 0, no keys gives (0, 0), and Up+Right gives (200, 200), of
magnitude 200·√2. -/
theorem keyboard_velocity_mapping_C1 (k : KeyState) (v : Int × Int) :
    keyboardVelocity k =
      (200 * ((if k.right then (1:Int) else 0) + (if k.left then -1 else 0)),
       200 * ((if k.up then (1:Int) else 0) + (if k.down then -1 else 0)))
    ∧ keyboard_control k [⟨true, v⟩] = [⟨true, keyboardVelocity k⟩]
    ∧ (keyboardVelocity ⟨true, true, k.down, k.up⟩).1 = 0
    ∧ keyboardVelocity ⟨false, false, false, false⟩ = (0, 0)
    ∧ keyboardVelocity ⟨false, true, false, true⟩ = (200, 200)
    ∧ Real.sqrt (((keyboardVelocity ⟨false, true, false, true⟩).1 : ℝ) ^ 2
        + ((keyboardVelocity ⟨false, true, false, true⟩).2 : ℝ) ^ 2)
      = 200 * Real.sqrt 2 := by
  refine ⟨?_, ?_, ?_, ?_, ?_, ?_⟩
  · rcases k with ⟨l, r, d, u⟩
    cases l <;> cases r <;> cases d <;> cases u <;> decide
  · rfl
  · rcases k with ⟨l, r, d, u⟩
    cases l <;> cases r <;> cases d <;> cases u <;> decide
  · decide
  · decide
  · have hv : keyboardVelocity ⟨false, true, false, true⟩ = (200, 200) := by decide
    rw [hv]
    push_cast
    rw [show ((200:ℝ) ^ 2 + (200:ℝ) ^ 2) = 80000 by norm_num]
    exact sqrt80000

/-- C6: if no entity carries the marker, the keyboard tick is a no-op — the
`single_mut` query fails, the `if let Ok` body is skipped, no velocity is
written (the function is total, so no crash occurs). -/
theorem keyboard_zero_controlled_noop_C6 (k : KeyState) (es : List PhysEntity)
    (h : ∀ e ∈ es, e.controlled = false) :
    keyboard_control k es = es := by
  have hf : (es.filter fun e => e.controlled) = [] := by
    apply List.filter_eq_nil_iff.mpr
    intro e he
    simp [h e he]
  simp [keyboard_control, hf]

theorem keyboard_zero_controlled_noop_C6_witness :
    keyboard_control ⟨false, false, false, false⟩ [⟨false, (0, 0)⟩]
      = [⟨false, (0, 0)⟩] :=
  keyboard_zero_controlled_noop_C6 ⟨false, false, false, false⟩
    [⟨false, (0, 0)⟩] (by decide)

/-- C10: if more than one entity carries the marker, `single_mut` fails with
`MultipleEntities`, the `if let Ok` body is skipped, and the tick is the same
defined no-op as the zero-marker case — no velocity write, no crash. -/
theorem keyboard_multiple_controlled_noop_C10 (k : KeyState) (es : List PhysEntity)
    (h : 2 ≤ (es.filter fun e => e.controlled).length) :
    keyboard_control k es = es := by
  have hne : ¬ ((es.filter fun e => e.controlled).length = 1) := by omega
  simp [keyboard_control, hne]

theorem keyboard_multiple_controlled_noop_C10_witness :
    keyboard_control ⟨false, true, false, true⟩ [⟨true, (0, 0)⟩, ⟨true, (3, 4)⟩]
      = [⟨true, (0, 0)⟩, ⟨true, (3, 4)⟩] :=
  keyboard_multiple_controlled_noop_C10 ⟨false, true, false, true⟩
    [⟨true, (0, 0)⟩, ⟨true, (3, 4)⟩] (by decide)

/-! ## Scene constants of `setup` -/

/-- `let wall_thickness = 10.0;` -/
def wall_thickness : ℚ := 10

/-- `bounds.x` of `let bounds = Vec2::new(800.0, 600.0);` -/
def boundsX : ℚ := 800

/-- `bounds.y` of `let bounds = Vec2::new(800.0, 600.0);` -/
def boundsY : ℚ := 600

/-- A spawned rectangle's planar data: center (from the transform passed to
`spawn_rectangle`) and visual size. -/
structure RectSpec where
  centerX : ℚ
  centerY : ℚ
  sizeX : ℚ
  sizeY : ℚ
deriving DecidableEq

/-- Left wall of `setup`: `transform2d(-bounds.x / 2.0, 0.0, ...)`,
size `(wall_thickness, bounds.y)`. -/
def leftWall : RectSpec := ⟨-boundsX / 2, 0, wall_thickness, boundsY⟩

/-- Right wall of `setup`: `transform2d(bounds.x / 2.0, 0.0, ...)`,
size `(wall_thickness, bounds.y)`. -/
def rightWall : RectSpec := ⟨boundsX / 2, 0, wall_thickness, boundsY⟩

/-- Top wall of `setup`: `transform2d(0.0, -bounds.y / 2.0, ...)`,
size `(bounds.x, wall_thickness)`. -/
def topWall : RectSpec := ⟨0, -boundsY / 2, boundsX, wall_thickness⟩

/-- Bottom wall of `setup`: `transform2d(0.0, bounds.y / 2.0, ...)`,
size `(bounds.x, wall_thickness)`. -/
def bottomWall : RectSpec := ⟨0, boundsY / 2, boundsX, wall_thickness⟩

/-- First angled obstacle of `setup`:
`transform2d(-bounds.x / 2.0 + 200.0, bounds.y / 2.0 - 300.0, 0.0, PI / 3.0)`,
size `(bounds.x / 4.0, wall_thickness * 4.0)` (rotation angle kept separately
in the real-valued builder embedding). -/
def obstacle1 : RectSpec :=
  ⟨-boundsX / 2 + 200, boundsY / 2 - 300, boundsX / 4, wall_thickness * 4⟩

/-- Second angled obstacle of `setup`:
`transform2d(bounds.x / 2.0 - 200.0, bounds.y / 2.0 - 300.0, 0.0, -PI / 2.5)`,
size `(bounds.x / 2.0, wall_thickness * 2.0)`. -/
def obstacle2 : RectSpec :=
  ⟨boundsX / 2 - 200, boundsY / 2 - 300, boundsX / 2, wall_thickness * 2⟩

/-- Player body of `setup`: `transform2d(0.0, 0.0, 1.0, 0.0)`,
size `(30.0, 30.0)`. -/
def playerRect : RectSpec := ⟨0, 0, 30, 30⟩

/-- A point of the rotated rectangle with center (cx, cy), half-extents
(a, b) and planar rotation angle θ, parametrized by (u, v) ∈ [−1, 1]²: the
rectangle is the image of [−1, 1]² under scaling by the half-extents, rotation
by θ, and translation to the center. -/
noncomputable def rotRectPoint (cx cy a b θ u v : ℝ) : ℝ × ℝ :=
  (cx + a * u * Real.cos θ - b * v * Real.sin θ,
   cy + a * u * Real.sin θ + b * v * Real.cos θ)

theorem abs_mul_mul_le (a ca x c : ℝ) (ha : 0 ≤ a) (hx : |x| ≤ 1) (hc : |c| ≤ ca) :
    |a * x * c| ≤ a * ca := by
  rw [abs_mul, abs_mul, abs_of_nonneg ha]
  have h1 : |x| * |c| ≤ 1 * ca := mul_le_mul hx hc (abs_nonneg c) (by norm_num)
  calc a * |x| * |c| = a * (|x| * |c|) := by ring
    _ ≤ a * (1 * ca) := mul_le_mul_of_nonneg_left h1 ha
    _ = a * ca := by ring

theorem rot_extent_sub_le (a b ca sa x y c s : ℝ) (ha : 0 ≤ a) (hb : 0 ≤ b)
    (hx : |x| ≤ 1) (hy : |y| ≤ 1) (hc : |c| ≤ ca) (hs : |s| ≤ sa) :
    |a * x * c - b * y * s| ≤ a * ca + b * sa := by
  have h1 := abs_mul_mul_le a ca x c ha hx hc
  have h2 := abs_mul_mul_le b sa y s hb hy hs
  have htri : |a * x * c - b * y * s| ≤ |a * x * c| + |b * y * s| := by
    have h := abs_add (a * x * c) (-(b * y * s))
    rw [abs_neg] at h
    calc |a * x * c - b * y * s| = |a * x * c + -(b * y * s)| := by rw [sub_eq_add_neg]
      _ ≤ |a * x * c| + |b * y * s| := h
  linarith

theorem rot_extent_add_le (a b sa ca x y s c : ℝ) (ha : 0 ≤ a) (hb : 0 ≤ b)
    (hx : |x| ≤ 1) (hy : |y| ≤ 1) (hs : |s| ≤ sa) (hc : |c| ≤ ca) :
    |a * x * s + b * y * c| ≤ a * sa + b * ca := by
  have h1 := abs_mul_mul_le a sa x s ha hx hs
  have h2 := abs_mul_mul_le b ca y c hb hy hc
  have htri := abs_add (a * x * s) (b * y * c)
  linarith

theorem abs_cos_obstacle2_angle : |Real.cos (-(Real.pi / 2.5))| ≤ 1 / 2 := by
  have hpi := Real.pi_pos
  rw [show -(Real.pi / 2.5) = -(2 * Real.pi / 5) by ring, Real.cos_neg]
  have hpos : 0 ≤ Real.cos (2 * Real.pi / 5) := by
    apply Real.cos_nonneg_of_mem_Icc
    exact Set.mem_Icc.mpr ⟨by linarith, by linarith⟩
  have hle : Real.cos (2 * Real.pi / 5) ≤ Real.cos (Real.pi / 3) :=
    Real.cos_le_cos_of_nonneg_of_le_pi (by linarith) (by linarith) (by linarith)
  rw [Real.cos_pi_div_three] at hle
  rw [abs_of_nonneg hpos]
  exact hle

theorem obstacle1_inside : ∀ u v : ℝ, |u| ≤ 1 → |v| ≤ 1 →
    ((leftWall.centerX : ℝ)
        < (rotRectPoint (obstacle1.centerX : ℝ) (obstacle1.centerY : ℝ)
            ((obstacle1.sizeX : ℝ) / 2) ((obstacle1.sizeY : ℝ) / 2)
            (Real.pi / 3) u v).1
      ∧ (rotRectPoint (obstacle1.centerX : ℝ) (obstacle1.centerY : ℝ)
            ((obstacle1.sizeX : ℝ) / 2) ((obstacle1.sizeY : ℝ) / 2)
            (Real.pi / 3) u v).1 < (rightWall.centerX : ℝ)
      ∧ (topWall.centerY : ℝ)
        < (rotRectPoint (obstacle1.centerX : ℝ) (obstacle1.centerY : ℝ)
            ((obstacle1.sizeX : ℝ) / 2) ((obstacle1.sizeY : ℝ) / 2)
            (Real.pi / 3) u v).2
      ∧ (rotRectPoint (obstacle1.centerX : ℝ) (obstacle1.centerY : ℝ)
            ((obstacle1.sizeX : ℝ) / 2) ((obstacle1.sizeY : ℝ) / 2)
            (Real.pi / 3) u v).2 < (bottomWall.centerY : ℝ)) := by
  intro u v hu hv
  have hca : |Real.cos (Real.pi / 3)| ≤ 1 / 2 := by
    rw [Real.cos_pi_div_three, abs_of_nonneg (by norm_num : (0:ℝ) ≤ 1 / 2)]
  have hsa : |Real.sin (Real.pi / 3)| ≤ 1 := Real.abs_sin_le_one _
  have hx := rot_extent_sub_le 100 20 (1 / 2) 1 u v (Real.cos (Real.pi / 3))
    (Real.sin (Real.pi / 3)) (by norm_num) (by norm_num) hu hv hca hsa
  have hy := rot_extent_add_le 100 20 1 (1 / 2) u v (Real.sin (Real.pi / 3))
    (Real.cos (Real.pi / 3)) (by norm_num) (by norm_num) hu hv hsa hca
  rw [abs_le] at hx hy
  obtain ⟨hx1, hx2⟩ := hx
  obtain ⟨hy1, hy2⟩ := hy
  have hcx : ((obstacle1.centerX : ℚ) : ℝ) = -200 := by
    norm_num [obstacle1, boundsX, boundsY]
  have hcy : ((obstacle1.centerY : ℚ) : ℝ) = 0 := by
    norm_num [obstacle1, boundsX, boundsY]
  have hsx : ((obstacle1.sizeX : ℚ) : ℝ) = 200 := by
    norm_num [obstacle1, boundsX, wall_thickness]
  have hsy : ((obstacle1.sizeY : ℚ) : ℝ) = 40 := by
    norm_num [obstacle1, wall_thickness]
  have hLc : ((leftWall.centerX : ℚ) : ℝ) = -400 := by norm_num [leftWall, boundsX]
  have hRc : ((rightWall.centerX : ℚ) : ℝ) = 400 := by norm_num [rightWall, boundsX]
  have hTc : ((topWall.centerY : ℚ) : ℝ) = -300 := by norm_num [topWall, boundsY]
  have hBc : ((bottomWall.centerY : ℚ) : ℝ) = 300 := by norm_num [bottomWall, boundsY]
  simp only [rotRectPoint, hcx, hcy, hsx, hsy, hLc, hRc, hTc, hBc]
  refine ⟨?_, ?_, ?_, ?_⟩ <;> linarith

theorem obstacle2_inside : ∀ u v : ℝ, |u| ≤ 1 → |v| ≤ 1 →
    ((leftWall.centerX : ℝ)
        < (rotRectPoint (obstacle2.centerX : ℝ) (obstacle2.centerY : ℝ)
            ((obstacle2.sizeX : ℝ) / 2) ((obstacle2.sizeY : ℝ) / 2)
            (-(Real.pi / 2.5)) u v).1
      ∧ (rotRectPoint (obstacle2.centerX : ℝ) (obstacle2.centerY : ℝ)
            ((obstacle2.sizeX : ℝ) / 2) ((obstacle2.sizeY : ℝ) / 2)
            (-(Real.pi / 2.5)) u v).1 < (rightWall.centerX : ℝ)
      ∧ (topWall.centerY : ℝ)
        < (rotRectPoint (obstacle2.centerX : ℝ) (obstacle2.centerY : ℝ)
            ((obstacle2.sizeX : ℝ) / 2) ((obstacle2.sizeY : ℝ) / 2)
            (-(Real.pi / 2.5)) u v).2
      ∧ (rotRectPoint (obstacle2.centerX : ℝ) (obstacle2.centerY : ℝ)
            ((obstacle2.sizeX : ℝ) / 2) ((obstacle2.sizeY : ℝ) / 2)
            (-(Real.pi / 2.5)) u v).2 < (bottomWall.centerY : ℝ)) := by
  intro u v hu hv
  have hca := abs_cos_obstacle2_angle
  have hsa : |Real.sin (-(Real.pi / 2.5))| ≤ 1 := Real.abs_sin_le_one _
  have hx := rot_extent_sub_le 200 10 (1 / 2) 1 u v (Real.cos (-(Real.pi / 2.5)))
    (Real.sin (-(Real.pi / 2.5))) (by norm_num) (by norm_num) hu hv hca hsa
  have hy := rot_extent_add_le 200 10 1 (1 / 2) u v (Real.sin (-(Real.pi / 2.5)))
    (Real.cos (-(Real.pi / 2.5))) (by norm_num) (by norm_num) hu hv hsa hca
  rw [abs_le] at hx hy
  obtain ⟨hx1, hx2⟩ := hx
  obtain ⟨hy1, hy2⟩ := hy
  have hcx : ((obstacle2.centerX : ℚ) : ℝ) = 200 := by
    norm_num [obstacle2, boundsX, boundsY]
  have hcy : ((obstacle2.centerY : ℚ) : ℝ) = 0 := by
    norm_num [obstacle2, boundsX, boundsY]
  have hsx : ((obstacle2.sizeX : ℚ) : ℝ) = 400 := by
    norm_num [obstacle2, boundsX, wall_thickness]
  have hsy : ((obstacle2.sizeY : ℚ) : ℝ) = 20 := by
    norm_num [obstacle2, wall_thickness]
  have hLc : ((leftWall.centerX : ℚ) : ℝ) = -400 := by norm_num [leftWall, boundsX]
  have hRc : ((rightWall.centerX : ℚ) : ℝ) = 400 := by norm_num [rightWall, boundsX]
  have hTc : ((topWall.centerY : ℚ) : ℝ) = -300 := by norm_num [topWall, boundsY]
  have hBc : ((bottomWall.centerY : ℚ) : ℝ) = 300 := by norm_num [bottomWall, boundsY]
  simp only [rotRectPoint, hcx, hcy, hsx, hsy, hLc, hRc, hTc, hBc]
  refine ⟨?_, ?_, ?_, ?_⟩ <;> linarith

/-- C4: the four boundary walls are centered at (−W/2, 0), (+W/2, 0),
(0, −H/2), (0, +H/2) with thickness T = 10 (W = 800, H = 600); the left/right
walls span exactly the playfield height H and the top/bottom walls exactly the
playfield width W, so the play area delimited by the wall center lines is
exactly W × H; the player spawn (0, 0) lies strictly inside the enclosed
region, and so does every point of each obstacle rectangle — obstacle 1
(200 × 40 at (−200, 0), rotated by π/3) and obstacle 2 (400 × 20 at (200, 0),
rotated by −π/2.5), both taken with their full rotated extent. -/
theorem walls_enclose_playfield_C4 :
    leftWall.centerX = -(boundsX / 2) ∧ leftWall.centerY = 0
    ∧ rightWall.centerX = boundsX / 2 ∧ rightWall.centerY = 0
    ∧ topWall.centerX = 0 ∧ topWall.centerY = -(boundsY / 2)
    ∧ bottomWall.centerX = 0 ∧ bottomWall.centerY = boundsY / 2
    ∧ leftWall.sizeX = wall_thickness ∧ rightWall.sizeX = wall_thickness
    ∧ topWall.sizeY = wall_thickness ∧ bottomWall.sizeY = wall_thickness
    ∧ leftWall.sizeY = boundsY ∧ rightWall.sizeY = boundsY
    ∧ topWall.sizeX = boundsX ∧ bottomWall.sizeX = boundsX
    ∧ rightWall.centerX - leftWall.centerX = boundsX
    ∧ bottomWall.centerY - topWall.centerY = boundsY
    ∧ (leftWall.centerX < playerRect.centerX ∧ playerRect.centerX < rightWall.centerX
        ∧ topWall.centerY < playerRect.centerY ∧ playerRect.centerY < bottomWall.centerY)
    ∧ (leftWall.centerX < obstacle1.centerX ∧ obstacle1.centerX < rightWall.centerX
        ∧ topWall.centerY < obstacle1.centerY ∧ obstacle1.centerY < bottomWall.centerY)
    ∧ (leftWall.centerX < obstacle2.centerX ∧ obstacle2.centerX < rightWall.centerX
        ∧ topWall.centerY < obstacle2.centerY ∧ obstacle2.centerY < bottomWall.centerY)
    ∧ (∀ u v : ℝ, |u| ≤ 1 → |v| ≤ 1 →
        ((leftWall.centerX : ℝ)
            < (rotRectPoint (obstacle1.centerX : ℝ) (obstacle1.centerY : ℝ)
                ((obstacle1.sizeX : ℝ) / 2) ((obstacle1.sizeY : ℝ) / 2)
                (Real.pi / 3) u v).1
          ∧ (rotRectPoint (obstacle1.centerX : ℝ) (obstacle1.centerY : ℝ)
                ((obstacle1.sizeX : ℝ) / 2) ((obstacle1.sizeY : ℝ) / 2)
                (Real.pi / 3) u v).1 < (rightWall.centerX : ℝ)
          ∧ (topWall.centerY : ℝ)
            < (rotRectPoint (obstacle1.centerX : ℝ) (obstacle1.centerY : ℝ)
                ((obstacle1.sizeX : ℝ) / 2) ((obstacle1.sizeY : ℝ) / 2)
                (Real.pi / 3) u v).2
          ∧ (rotRectPoint (obstacle1.centerX : ℝ) (obstacle1.centerY : ℝ)
                ((obstacle1.sizeX : ℝ) / 2) ((obstacle1.sizeY : ℝ) / 2)
                (Real.pi / 3) u v).2 < (bottomWall.centerY : ℝ)))
    ∧ (∀ u v : ℝ, |u| ≤ 1 → |v| ≤ 1 →
        ((leftWall.centerX : ℝ)
            < (rotRectPoint (obstacle2.centerX : ℝ) (obstacle2.centerY : ℝ)
                ((obstacle2.sizeX : ℝ) / 2) ((obstacle2.sizeY : ℝ) / 2)
                (-(Real.pi / 2.5)) u v).1
          ∧ (rotRectPoint (obstacle2.centerX : ℝ) (obstacle2.centerY : ℝ)
                ((obstacle2.sizeX : ℝ) / 2) ((obstacle2.sizeY : ℝ) / 2)
                (-(Real.pi / 2.5)) u v).1 < (rightWall.centerX : ℝ)
          ∧ (topWall.centerY : ℝ)
            < (rotRectPoint (obstacle2.centerX : ℝ) (obstacle2.centerY : ℝ)
                ((obstacle2.sizeX : ℝ) / 2) ((obstacle2.sizeY : ℝ) / 2)
                (-(Real.pi / 2.5)) u v).2
          ∧ (rotRectPoint (obstacle2.centerX : ℝ) (obstacle2.centerY : ℝ)
                ((obstacle2.sizeX : ℝ) / 2) ((obstacle2.sizeY : ℝ) / 2)
                (-(Real.pi / 2.5)) u v).2 < (bottomWall.centerY : ℝ))) := by
  refine ⟨?_, ?_, ?_, ?_, ?_, ?_, ?_, ?_, ?_, ?_, ?_, ?_, ?_, ?_, ?_, ?_, ?_, ?_, ?_, ?_, ?_,
      obstacle1_inside, obstacle2_inside⟩ <;>
    norm_num [leftWall, rightWall, topWall, bottomWall, obstacle1, obstacle2,
      playerRect, wall_thickness, boundsX, boundsY]

theorem walls_enclose_playfield_C4_witness :
    (leftWall.centerX : ℝ)
        < (rotRectPoint (obstacle2.centerX : ℝ) (obstacle2.centerY : ℝ)
            ((obstacle2.sizeX : ℝ) / 2) ((obstacle2.sizeY : ℝ) / 2)
            (-(Real.pi / 2.5)) 1 (-1)).1
    ∧ (rotRectPoint (obstacle2.centerX : ℝ) (obstacle2.centerY : ℝ)
            ((obstacle2.sizeX : ℝ) / 2) ((obstacle2.sizeY : ℝ) / 2)
            (-(Real.pi / 2.5)) 1 (-1)).1 < (rightWall.centerX : ℝ)
    ∧ (topWall.centerY : ℝ)
        < (rotRectPoint (obstacle2.centerX : ℝ) (obstacle2.centerY : ℝ)
            ((obstacle2.sizeX : ℝ) / 2) ((obstacle2.sizeY : ℝ) / 2)
            (-(Real.pi / 2.5)) 1 (-1)).2
    ∧ (rotRectPoint (obstacle2.centerX : ℝ) (obstacle2.centerY : ℝ)
            ((obstacle2.sizeX : ℝ) / 2) ((obstacle2.sizeY : ℝ) / 2)
            (-(Real.pi / 2.5)) 1 (-1)).2 < (bottomWall.centerY : ℝ) := by
  obtain ⟨-, -, -, -, -, -, -, -, -, -, -, -, -, -, -, -, -, -, -, -, -, -, h2⟩ :=
    walls_enclose_playfield_C4
  exact h2 1 (-1) (by norm_num) (by norm_num)

/-- The kind of entity spawned by `setup`: the two camera bundles, the six
collider-only static rectangles (spawned with `spawn_rectangle`: sprite +
collider, no rigid body, hence a static rapier collider), or the one dynamic
rigid-body rectangle (spawned with `spawn_rigid_body_rectangle`, whose
`RigidBodyBundle` default body type is dynamic). -/
inductive SpawnKind where
  | camera
  | staticRect
  | dynamicRect
deriving DecidableEq

def SpawnKind.isStatic : SpawnKind → Bool
  | SpawnKind.staticRect => true
  | _ => false

def SpawnKind.isDynamic : SpawnKind → Bool
  | SpawnKind.dynamicRect => true
  | _ => false

/-- One entity spawned during `setup`: its kind, its rectangle (a dummy
all-zero rectangle for the cameras, which carry no rectangle), and whether
`.insert(KeyboardControlled)` is applied to it. -/
structure SpawnedEntity where
  kind : SpawnKind
  rect : RectSpec
  controlled : Bool
deriving DecidableEq

/-- The complete list of entities spawned by `setup`, in source order:
2d camera, UI camera, left/right/top/bottom walls, the two angled obstacles,
and the player (the only `spawn_rigid_body_rectangle` call, tagged
`KeyboardControlled`). -/
def setupSpawns : List SpawnedEntity :=
  [ ⟨SpawnKind.camera, ⟨0, 0, 0, 0⟩, false⟩,
    ⟨SpawnKind.camera, ⟨0, 0, 0, 0⟩, false⟩,
    ⟨SpawnKind.staticRect, leftWall, false⟩,
    ⟨SpawnKind.staticRect, rightWall, false⟩,
    ⟨SpawnKind.staticRect, topWall, false⟩,
    ⟨SpawnKind.staticRect, bottomWall, false⟩,
    ⟨SpawnKind.staticRect, obstacle1, false⟩,
    ⟨SpawnKind.staticRect, obstacle2, false⟩,
    ⟨SpawnKind.dynamicRect, playerRect, true⟩ ]

/-- C7: after `setup`, exactly 6 static bodies exist (4 walls + 2 obstacles)
and exactly 1 dynamic body; the entities carrying the `KeyboardControlled`
marker are exactly the dynamic player body, which is spawned at the world
origin (0, 0). -/
theorem setup_population_C7 :
    (setupSpawns.filter fun e => SpawnKind.isStatic e.kind).length = 6
    ∧ (setupSpawns.filter fun e => SpawnKind.isDynamic e.kind)
        = [⟨SpawnKind.dynamicRect, playerRect, true⟩]
    ∧ (setupSpawns.filter fun e => e.controlled)
        = [⟨SpawnKind.dynamicRect, playerRect, true⟩]
    ∧ playerRect.centerX = 0 ∧ playerRect.centerY = 0 :=
  ⟨rfl, rfl, rfl, rfl, rfl⟩

/-! ## Fixed-timestep scheduler (C2) -/

/-- `const TIME_STEP: f32 = 1.0 / FPS;` with `FPS = 60.0`, passed to
`FixedTimestep::step(TIME_STEP as f64)`.  Exact as a rational. -/
def TIME_STEP : ℚ := 1 / 60

/-- The two observable actions of one fixed tick. -/
inductive TickEvent where
  | mapperRun
  | physicsStep
deriving DecidableEq

/-- Modelled from the spec: one fixed tick runs the Input-to-Velocity Mapper
once, then invokes the physics engine's single simulation step once, in that
order.  (The per-tick ordering of the rapier plugin's step relative to the
`keyboard_control` system set is scheduling code of bevy/bevy_rapier, outside
this repository's sources.) -/
def tickEvents : List TickEvent := [TickEvent.mapperRun, TickEvent.physicsStep]

/-- Modelled from the spec: the fixed-timestep accumulator (bevy
`FixedTimestep::step` run criteria, outside this repository's sources) adds
the frame duration to the accumulated time and runs one tick per full
`TIME_STEP` contained in it; the number of ticks run in one frame starting
from accumulator `acc` with frame duration `dt`. -/
def frameTickCount (acc dt : ℚ) : ℕ := (⌊(acc + dt) / TIME_STEP⌋).toNat

/-- Modelled from the spec: the accumulator left over after a frame — one
`TIME_STEP` is subtracted per tick run. -/
def frameAdvance (acc dt : ℚ) : ℚ := acc + dt - frameTickCount acc dt * TIME_STEP

/-- Total number of fixed ticks run over a sequence of frame durations,
starting from accumulator `acc`. -/
def runFrames : ℚ → List ℚ → ℕ
  | _, [] => 0
  | acc, dt :: rest => frameTickCount acc dt + runFrames (frameAdvance acc dt) rest

/-- The accumulator left over after a sequence of frame durations. -/
def runFramesAcc : ℚ → List ℚ → ℚ
  | acc, [] => acc
  | acc, dt :: rest => runFramesAcc (frameAdvance acc dt) rest

/-- The event trace of a sequence of frames: each tick contributes one
`mapperRun` followed by one `physicsStep`. -/
def runFramesTrace : ℚ → List ℚ → List TickEvent
  | _, [] => []
  | acc, dt :: rest =>
      (List.replicate (frameTickCount acc dt) tickEvents).join
        ++ runFramesTrace (frameAdvance acc dt) rest

/-- Total ticks of a whole run, which starts with an empty accumulator. -/
def totalTicks (ds : List ℚ) : ℕ := runFrames 0 ds

theorem TIME_STEP_pos : (0 : ℚ) < TIME_STEP := by norm_num [TIME_STEP]

theorem frame_invariant (acc dt : ℚ) (hacc : 0 ≤ acc) (hdt : 0 ≤ dt) :
    (frameTickCount acc dt : ℚ) * TIME_STEP + frameAdvance acc dt = acc + dt
    ∧ 0 ≤ frameAdvance acc dt ∧ frameAdvance acc dt < TIME_STEP := by
  have hs := TIME_STEP_pos
  have ht : 0 ≤ acc + dt := add_nonneg hacc hdt
  have hfl : 0 ≤ ⌊(acc + dt) / TIME_STEP⌋ :=
    Int.floor_nonneg.mpr (div_nonneg ht (le_of_lt hs))
  have hmq : ((frameTickCount acc dt : ℕ) : ℚ) = ((⌊(acc + dt) / TIME_STEP⌋ : ℤ) : ℚ) := by
    simp only [frameTickCount]
    exact_mod_cast Int.toNat_of_nonneg hfl
  have h1 : ((⌊(acc + dt) / TIME_STEP⌋ : ℤ) : ℚ) * TIME_STEP ≤ acc + dt := by
    rw [← le_div_iff hs]
    exact Int.floor_le _
  have h2 : acc + dt < (((⌊(acc + dt) / TIME_STEP⌋ : ℤ) : ℚ) + 1) * TIME_STEP := by
    rw [← div_lt_iff hs]
    exact Int.lt_floor_add_one _
  refine ⟨?_, ?_, ?_⟩
  · simp only [frameAdvance, hmq]
    ring
  · simp only [frameAdvance, hmq]
    linarith
  · simp only [frameAdvance, hmq]
    nlinarith

theorem runFrames_invariant (ds : List ℚ) :
    ∀ acc : ℚ, (∀ d ∈ ds, 0 ≤ d) → 0 ≤ acc → acc < TIME_STEP →
      ((runFrames acc ds : ℕ) : ℚ) * TIME_STEP + runFramesAcc acc ds = acc + ds.sum
      ∧ 0 ≤ runFramesAcc acc ds ∧ runFramesAcc acc ds < TIME_STEP := by
  induction ds with
  | nil =>
      intro acc _ hacc0 hacc1
      simp [runFrames, runFramesAcc, hacc0, hacc1]
  | cons dt rest ih =>
      intro acc hds hacc0 hacc1
      have hdt : 0 ≤ dt := hds dt (by simp)
      obtain ⟨hid, hnn, hlt⟩ := frame_invariant acc dt hacc0 hdt
      obtain ⟨ihid, ihnn, ihlt⟩ :=
        ih (frameAdvance acc dt) (fun d hd => hds d (by simp [hd])) hnn hlt
      refine ⟨?_, ?_, ?_⟩
      · simp only [runFrames, runFramesAcc, List.sum_cons]
        push_cast
        linarith
      · simpa [runFramesAcc] using ihnn
      · simpa [runFramesAcc] using ihlt

theorem runFramesTrace_eq (ds : List ℚ) :
    ∀ acc : ℚ, runFramesTrace acc ds = (List.replicate (runFrames acc ds) tickEvents).join := by
  induction ds with
  | nil => intro acc; rfl
  | cons dt rest ih =>
      intro acc
      show (List.replicate (frameTickCount acc dt) tickEvents).join
            ++ runFramesTrace (frameAdvance acc dt) rest
          = (List.replicate (frameTickCount acc dt
              + runFrames (frameAdvance acc dt) rest) tickEvents).join
      rw [ih, List.replicate_add]
      exact (List.join_append _ _).symm

/-- C2: for any sequence of nonnegative frame durations whose total is exactly
k · TIME_STEP, the fixed-timestep scheduler performs exactly k fixed ticks —
no drift, no dropped or duplicated tick, for any partition of the total across
frames — and the resulting trace is k repetitions of mapper-then-physics-step. -/
theorem scheduler_fixed_ticks_C2 (ds : List ℚ) (k : ℕ)
    (hnn : ∀ d ∈ ds, 0 ≤ d) (hsum : ds.sum = (k : ℚ) * TIME_STEP) :
    totalTicks ds = k
    ∧ runFramesTrace 0 ds = (List.replicate k tickEvents).join := by
  have hs := TIME_STEP_pos
  obtain ⟨hid, h0, h1⟩ := runFrames_invariant ds 0 hnn le_rfl hs
  rw [hsum] at hid
  have hle : ((runFrames 0 ds : ℕ) : ℚ) ≤ (k : ℚ) := by
    have hmul : ((runFrames 0 ds : ℕ) : ℚ) * TIME_STEP ≤ (k : ℚ) * TIME_STEP := by
      linarith
    exact le_of_mul_le_mul_right hmul hs
  have hlt : (k : ℚ) < ((runFrames 0 ds : ℕ) : ℚ) + 1 := by
    have hexp : (((runFrames 0 ds : ℕ) : ℚ) + 1) * TIME_STEP
        = ((runFrames 0 ds : ℕ) : ℚ) * TIME_STEP + TIME_STEP := by ring
    have hmul : (k : ℚ) * TIME_STEP < (((runFrames 0 ds : ℕ) : ℚ) + 1) * TIME_STEP := by
      rw [hexp]
      linarith
    exact lt_of_mul_lt_mul_right hmul (le_of_lt hs)
  have hn : runFrames 0 ds = k := by
    have ha : runFrames 0 ds ≤ k := by exact_mod_cast hle
    have hb : (k : ℚ) < ((runFrames 0 ds + 1 : ℕ) : ℚ) := by push_cast; linarith
    have hb2 : k < runFrames 0 ds + 1 := by exact_mod_cast hb
    omega
  refine ⟨hn, ?_⟩
  rw [runFramesTrace_eq, hn]

theorem scheduler_fixed_ticks_C2_witness :
    totalTicks [1/120, 1/120, 1/60] = 2
    ∧ runFramesTrace 0 [1/120, 1/120, 1/60] = (List.replicate 2 tickEvents).join :=
  scheduler_fixed_ticks_C2 [1/120, 1/120, 1/60] 2
    (by intro d hd
        have hd2 := List.mem_cons.mp hd
        rcases hd2 with h | hd2
        · rw [h]; norm_num
        · rcases List.mem_cons.mp hd2 with h | hd3
          · rw [h]; norm_num
          · rcases List.mem_cons.mp hd3 with h | hd4
            · rw [h]; norm_num
            · simp at hd4)
    (by norm_num [TIME_STEP])

/-! ## Entity composition builder (C3, C5, C8) -/

/-- A quaternion, as stored in a bevy `Transform`'s `rotation` field
(glam `Quat`, components exact over `ℝ`). -/
structure Quat where
  x : ℝ
  y : ℝ
  z : ℝ
  w : ℝ

/-- glam `Quat::from_axis_angle(axis, angle)`:
`(axis * sin(angle / 2), cos(angle / 2))`. -/
noncomputable def Quat.fromAxisAngle (ax ay az angle : ℝ) : Quat :=
  ⟨ax * Real.sin (angle / 2), ay * Real.sin (angle / 2), az * Real.sin (angle / 2),
    Real.cos (angle / 2)⟩

/-- The angle returned by glam `Quat::to_axis_angle` (`.1` in the source):
`2 * acos(w)`.  The accompanying axis (which carries the sign of the original
rotation) is discarded by `spawn_rectangle`. -/
noncomputable def Quat.toAxisAngleAngle (q : Quat) : ℝ := 2 * Real.arccos q.w

/-- A bevy `Transform` as used by the source: translation plus rotation
quaternion (scale is left at its default and never read). -/
structure Transform where
  tx : ℝ
  ty : ℝ
  tz : ℝ
  rotation : Quat

/-- The source's `transform2d(x, y, z, radians)`: translation `(x, y, z)` and
rotation `Quat::from_axis_angle(Vec3::new(0.0, 1.0, 0.0), radians)` — note the
axis the code passes is `(0, 1, 0)`. -/
noncomputable def transform2d (x y z radians : ℝ) : Transform :=
  ⟨x, y, z, Quat.fromAxisAngle 0 1 0 radians⟩

/-- The collider attached by `spawn_rectangle`: cuboid half-extents
`(size.x / 2, size.y / 2)` and position
`Isometry2::new([translation.x, translation.y], rotation.to_axis_angle().1)`. -/
structure Collider where
  halfX : ℝ
  halfY : ℝ
  posX : ℝ
  posY : ℝ
  angle : ℝ

/-- Embeds `spawn_rectangle(entity, material, transform, size)` (the material
and sprite visual are rendering-side and carry no verified content; the
sprite's size is `size`, recorded here through the half-extents invariant
`halfX = size.x / 2 ∧ halfY = size.y / 2`). -/
noncomputable def spawn_rectangle (t : Transform) (sizeX sizeY : ℝ) : Collider :=
  ⟨sizeX / 2, sizeY / 2, t.tx, t.ty, t.rotation.toAxisAngleAngle⟩

/-- The rigid-body state attached by `spawn_rigid_body_rectangle` via
`RigidBodyBundle`: `position: [translation.x, translation.y]`,
`mass_properties: RigidBodyMassPropsFlags::ROTATION_LOCKED`, all other fields
defaulted — in particular velocity defaults to zero linear and zero angular
velocity, and the body type defaults to dynamic. -/
structure RigidBody where
  posX : ℝ
  posY : ℝ
  linvelX : ℝ
  linvelY : ℝ
  angvel : ℝ
  rotationLocked : Bool

/-- Embeds `spawn_rigid_body_rectangle`: first `spawn_rectangle`, then the
`RigidBodyBundle` described above. -/
noncomputable def spawn_rigid_body_rectangle (t : Transform) (sizeX sizeY : ℝ) :
    Collider × RigidBody :=
  (spawn_rectangle t sizeX sizeY, ⟨t.tx, t.ty, 0, 0, 0, true⟩)

/-- Modelled from the spec: the physics engine's step is a black-box external
collaborator; the rotation-locked mass-property contract says a step never
changes the angular velocity of a body whose rotation is locked (and keeps the
lock in place). -/
def RespectsRotationLock (phys : RigidBody → RigidBody) : Prop :=
  ∀ b : RigidBody, b.rotationLocked = true →
    (phys b).angvel = b.angvel ∧ (phys b).rotationLocked = true

theorem rotation_lock_preserved (phys : RigidBody → RigidBody)
    (hphys : RespectsRotationLock phys) (b : RigidBody)
    (hlock : b.rotationLocked = true) (hang : b.angvel = 0) :
    ∀ n : ℕ, (Nat.iterate phys n b).angvel = 0
      ∧ (Nat.iterate phys n b).rotationLocked = true := by
  intro n
  induction n with
  | zero => exact ⟨hang, hlock⟩
  | succ m ihm =>
      rw [Function.iterate_succ_apply']
      obtain ⟨ih1, ih2⟩ := ihm
      obtain ⟨h1, h2⟩ := hphys (Nat.iterate phys m b) ih2
      exact ⟨by rw [h1, ih1], h2⟩

/-- C8: `spawn_rigid_body_rectangle` performs the same visual+collider
composition as `spawn_rectangle` and additionally attaches rigid-body state
with planar position equal to the transform's (x, y), zero initial linear and
angular velocity, and rotation-locked mass properties, so that any number of
physics steps respecting the rotation-lock contract leaves the angular
velocity at zero. -/
theorem spawn_dynamic_rectangle_C8 (t : Transform) (sizeX sizeY : ℝ) :
    (spawn_rigid_body_rectangle t sizeX sizeY).1 = spawn_rectangle t sizeX sizeY
    ∧ (spawn_rigid_body_rectangle t sizeX sizeY).2.posX = t.tx
    ∧ (spawn_rigid_body_rectangle t sizeX sizeY).2.posY = t.ty
    ∧ (spawn_rigid_body_rectangle t sizeX sizeY).2.linvelX = 0
    ∧ (spawn_rigid_body_rectangle t sizeX sizeY).2.linvelY = 0
    ∧ (spawn_rigid_body_rectangle t sizeX sizeY).2.angvel = 0
    ∧ (spawn_rigid_body_rectangle t sizeX sizeY).2.rotationLocked = true
    ∧ ∀ phys : RigidBody → RigidBody, RespectsRotationLock phys →
        ∀ n : ℕ, (Nat.iterate phys n (spawn_rigid_body_rectangle t sizeX sizeY).2).angvel = 0 := by
  refine ⟨rfl, rfl, rfl, rfl, rfl, rfl, rfl, ?_⟩
  intro phys hphys n
  exact (rotation_lock_preserved phys hphys _ rfl rfl n).1

theorem spawn_dynamic_rectangle_C8_witness :
    (spawn_rigid_body_rectangle (transform2d 0 0 1 0) 30 30).2.linvelX = 0
    ∧ (spawn_rigid_body_rectangle (transform2d 0 0 1 0) 30 30).2.linvelY = 0
    ∧ (Nat.iterate id 3 (spawn_rigid_body_rectangle (transform2d 0 0 1 0) 30 30).2).angvel
        = 0 := by
  obtain ⟨h1, h2, h3, h4, h5, h6, h7, h8⟩ :=
    spawn_dynamic_rectangle_C8 (transform2d 0 0 1 0) 30 30
  exact ⟨h4, h5, h8 id (fun b hb => ⟨rfl, hb⟩) 3⟩

theorem arccos_cos_abs (r : ℝ) (h1 : -(2 * Real.pi) ≤ r) (h2 : r ≤ 2 * Real.pi) :
    2 * Real.arccos (Real.cos (r / 2)) = |r| := by
  rcases le_or_lt 0 r with hr | hr
  · rw [Real.arccos_cos (by linarith) (by linarith), abs_of_nonneg hr]
    ring
  · rw [show r / 2 = -(-r / 2) by ring, Real.cos_neg,
      Real.arccos_cos (by linarith) (by linarith), abs_of_neg hr]
    ring

/-- C3 (amended): for every transform built by `transform2d` and every size,
the spawned collider has half-extents exactly (size.x/2, size.y/2) and is
positioned at the transform's planar (x, y); its angle is the canonical
axis-angle magnitude of the rotation quaternion, i.e. the absolute value |r|
of the rotation angle r — the sign of a negative angle goes into the discarded
axis, so for the −π/2.5 obstacle the collider angle is +π/2.5, not −π/2.5. -/
theorem spawn_rectangle_collider_C3 (x y z r sizeX sizeY : ℝ)
    (h1 : -(2 * Real.pi) ≤ r) (h2 : r ≤ 2 * Real.pi) :
    spawn_rectangle (transform2d x y z r) sizeX sizeY
      = ⟨sizeX / 2, sizeY / 2, x, y, |r|⟩ := by
  simp only [spawn_rectangle, transform2d, Quat.fromAxisAngle, Quat.toAxisAngleAngle]
  congr 1
  exact arccos_cos_abs r h1 h2

theorem spawn_rectangle_collider_C3_witness :
    spawn_rectangle (transform2d 0 0 0 (Real.pi / 3)) 30 30
      = ⟨30 / 2, 30 / 2, 0, 0, |Real.pi / 3|⟩ :=
  spawn_rectangle_collider_C3 0 0 0 (Real.pi / 3) 30 30
    (by linarith [Real.pi_pos]) (by linarith [Real.pi_pos])

/-- C3 counterexample: the second obstacle is spawned with rotation angle
−π/2.5, but the collider the code builds for it has angle +π/2.5 = 2π/5
(`to_axis_angle` returns a nonnegative angle and flips the axis, and the axis
is discarded), which differs from the transform's rotation angle −π/2.5. -/
theorem spawn_rectangle_collider_C3_counterexample :
    (spawn_rectangle (transform2d 200 0 0 (-(Real.pi / 2.5))) 400 20).angle
        = 2 * Real.pi / 5
    ∧ (2 * Real.pi / 5 : ℝ) ≠ -(Real.pi / 2.5) := by
  have hpi := Real.pi_pos
  constructor
  · simp only [spawn_rectangle, transform2d, Quat.fromAxisAngle, Quat.toAxisAngleAngle]
    rw [show -(Real.pi / 2.5) / 2 = -(Real.pi / 5) by ring, Real.cos_neg,
      Real.arccos_cos (by linarith) (by linarith)]
    ring
  · intro h
    rw [show -(Real.pi / 2.5) = -(2 * Real.pi / 5) by ring] at h
    linarith

/-- C5 (the code at the failing input): `transform2d` builds its rotation
about the axis (0, 1, 0), which lies in the playfield plane.  Obstacle 1's
rotation `transform2d(-200, 0, 0, π/3)` is exactly the Y-axis quaternion and
is not the rotation by π/3 about the out-of-plane axis (0, 0, 1) that the
claim describes: the two quaternions differ in their y component
(sin(π/6) = 1/2 versus 0). -/
theorem transform2d_rotation_axis_C5 :
    (transform2d (-200) 0 0 (Real.pi / 3)).rotation
        = Quat.fromAxisAngle 0 1 0 (Real.pi / 3)
    ∧ (transform2d (-200) 0 0 (Real.pi / 3)).rotation
        ≠ Quat.fromAxisAngle 0 0 1 (Real.pi / 3) := by
  refine ⟨rfl, ?_⟩
  intro h
  have hy := congrArg Quat.y h
  simp only [transform2d, Quat.fromAxisAngle] at hy
  rw [show Real.pi / 3 / 2 = Real.pi / 6 by ring, Real.sin_pi_div_six] at hy
  norm_num at hy

/-! ## Global gravity (C9) -/

/-- The shared mutable state this core touches: the rapier configuration's
gravity vector and the velocity-carrying entities reachable by the
`keyboard_control` query. -/
structure WorldState where
  gravityX : ℚ
  gravityY : ℚ
  entities : List PhysEntity

/-- Embeds the initialization effect of `setup` on the shared state:
`physics_config.gravity.x = 0.0; physics_config.gravity.y = 0.0;` overwrites
both gravity components with 0 whatever their prior value was, and the single
velocity-carrying entity — the player — is spawned carrying the marker with
`RigidBodyBundle`'s default zero velocity. -/
def setupWorld (g0x g0y : ℚ) : WorldState :=
  let _ := (g0x, g0y)
  ⟨0, 0, [⟨true, (0, 0)⟩]⟩

/-- One fixed tick as seen through this core's writes: `keyboard_control`
runs with some key state; its system parameters are only the key input and
the marker/velocity query, so the gravity configuration is untouched. -/
def worldTick (k : KeyState) (w : WorldState) : WorldState :=
  ⟨w.gravityX, w.gravityY, keyboard_control k w.entities⟩

theorem worldTicks_gravity (ks : List KeyState) :
    ∀ w : WorldState,
      (ks.foldl (fun w k => worldTick k w) w).gravityX = w.gravityX
      ∧ (ks.foldl (fun w k => worldTick k w) w).gravityY = w.gravityY := by
  induction ks with
  | nil => intro w; exact ⟨rfl, rfl⟩
  | cons k rest ih => intro w; exact ih (worldTick k w)

/-- C9: `setup` writes the gravity vector to exactly (0, 0) whatever its prior
value, and no operation of this core writes it afterward: after any sequence
of keyboard ticks the gravity is still exactly (0, 0). -/
theorem gravity_zero_forever_C9 (g0x g0y : ℚ) (ks : List KeyState) :
    (setupWorld g0x g0y).gravityX = 0 ∧ (setupWorld g0x g0y).gravityY = 0
    ∧ (ks.foldl (fun w k => worldTick k w) (setupWorld g0x g0y)).gravityX = 0
    ∧ (ks.foldl (fun w k => worldTick k w) (setupWorld g0x g0y)).gravityY = 0 := by
  obtain ⟨hx, hy⟩ := worldTicks_gravity ks (setupWorld g0x g0y)
  exact ⟨rfl, rfl, by rw [hx]; rfl, by rw [hy]; rfl⟩
